import Mathlib

/-!
Shallow embedding of the authentication / event-log subsystem of the
`python-backend` repository: the domain entities (`User`, `EventLog`), the
password hasher and JWT services, the `AuthService` transitions (login,
register, refresh), the authorization gate (`get_current_user`) and the
event-log query (`EventLogService.get_logs`).

Modelling conventions:
* timestamps (`datetime.utcnow()`) are natural numbers counting seconds;
  `timedelta(days=7)` is `7 * 86400` and `timedelta(minutes=m)` is `m * 60`;
* randomness (`secrets.token_urlsafe(32)`, `bcrypt.gensalt()`) is passed in
  as an explicit argument holding the freshly drawn value;
* the SQLAlchemy session is a list of rows; `query(M).filter(cond).first()`
  is `List.find?`; mutating the row returned by such a query and then
  committing replaces the first matching row (`commitFirst`);
* Python exceptions are modelled with `Except PyErr`;
* a stored digest string is either a well-formed bcrypt hash (recorded
  together with the password and salt it was computed from) or a malformed
  string; `bcrypt.checkpw` raises `ValueError("Invalid salt")` on a
  malformed digest, which is the behaviour of the pyca/bcrypt library the
  code calls without any try/except.
-/

namespace Backend

/-- Python exceptions raised by the modelled code: plain `Exception(msg)`,
`ValueError(msg)`, and FastAPI's `HTTPException(status_code, detail)`. -/
inductive PyErr
  | exception (msg : String)
  | valueError (msg : String)
  | httpException (status : Nat) (detail : String)
deriving DecidableEq, Repr

/-- Embedding of `src/domain/enums/user_role.py`: `UserRole(str, Enum)` with
members `ADMIN = "Admin"` and `USER = "User"`. -/
inductive UserRole
  | admin
  | user
deriving DecidableEq, Repr

/-- The `.value` of the `UserRole` enum member. -/
def UserRole.value : UserRole → String
  | .admin => "Admin"
  | .user => "User"

/-- A stored password digest string. `bcryptHash pw salt` stands for the
well-formed bcrypt digest `bcrypt.hashpw(pw, salt)`; `malformed s` stands
for any string `s` that is not a well-formed bcrypt digest. -/
inductive Digest
  | bcryptHash (pw salt : String)
  | malformed (s : String)
deriving DecidableEq, Repr

/-- Python truthiness test `not digest_string` for the digest string. A
well-formed bcrypt digest string is never empty. -/
def Digest.isEmptyString : Digest → Bool
  | .bcryptHash _ _ => false
  | .malformed s => s == ""

/-- Embedding of `bcrypt.hashpw(password, salt)` of the pyca/bcrypt library. -/
def bcrypt_hashpw (password salt : String) : Digest :=
  .bcryptHash password salt

/-- Embedding of `bcrypt.checkpw(password, hashed)` of the pyca/bcrypt
library: compares against a well-formed digest, raises
`ValueError("Invalid salt")` when the digest is malformed. -/
def bcrypt_checkpw (password : String) (hashed : Digest) : Except PyErr Bool :=
  match hashed with
  | .bcryptHash pw _ => .ok (pw == password)
  | .malformed _ => .error (.valueError "Invalid salt")

/-- Embedding of `PasswordHasher.hash` (`services_impl.py`): hashes with a
freshly generated salt, passed here as the `salt` argument. -/
def PasswordHasher.hash (password salt : String) : Digest :=
  bcrypt_hashpw password salt

/-- Embedding of `PasswordHasher.verify` (`services_impl.py`): a direct call
to `bcrypt.checkpw` with no exception handling. -/
def PasswordHasher.verify (password : String) (password_hash : Digest) :
    Except PyErr Bool :=
  bcrypt_checkpw password password_hash

/-- Embedding of `src/domain/entities/user.py` (`User`) together with the
`BaseEntity` columns of `src/domain/common/base_entity.py`. -/
structure User where
  id : Nat
  is_active : Bool
  creation_date : Nat
  modification_date : Option Nat
  username : String
  email : String
  password_hash : Digest
  role : UserRole
  refresh_token : Option String
  refresh_token_expiry_time : Option Nat
deriving DecidableEq, Repr

/-- Embedding of `User.__init__`: validates that username, email and password
hash are non-empty (`ValueError` otherwise) and creates an active user with
no refresh token. The database-assigned id and creation timestamp are passed
explicitly. -/
def User.make (username email : String) (password_hash : Digest)
    (role : UserRole) (id creation_date : Nat) : Except PyErr User :=
  if username = "" then
    .error (.valueError "Username cannot be empty")
  else if email = "" then
    .error (.valueError "Email cannot be empty")
  else if password_hash.isEmptyString then
    .error (.valueError "Password hash cannot be empty")
  else
    .ok { id := id, is_active := true, creation_date := creation_date,
          modification_date := none, username := username, email := email,
          password_hash := password_hash, role := role,
          refresh_token := none, refresh_token_expiry_time := none }

/-- Embedding of `User.update_refresh_token`: sets the refresh token and its
expiry and refreshes the modification timestamp. -/
def User.update_refresh_token (u : User) (refresh_token : String)
    (expiry_time now : Nat) : User :=
  { u with refresh_token := some refresh_token,
           refresh_token_expiry_time := some expiry_time,
           modification_date := some now }

/-- Embedding of `src/domain/entities/event_log.py` (`EventLog`) with the
`BaseEntity` columns. -/
structure EventLog where
  id : Nat
  is_active : Bool
  creation_date : Nat
  event_type : String
  description : String
  user_id : Option Nat
deriving DecidableEq, Repr

/-- Embedding of `EventLog.__init__`: validates that event type and
description are non-empty (`ValueError` otherwise). -/
def EventLog.make (event_type description : String) (user_id : Option Nat)
    (id creation_date : Nat) : Except PyErr EventLog :=
  if event_type = "" then
    .error (.valueError "Event type cannot be empty")
  else if description = "" then
    .error (.valueError "Description cannot be empty")
  else
    .ok { id := id, is_active := true, creation_date := creation_date,
          event_type := event_type, description := description,
          user_id := user_id }

/-- Row predicate of `UserRepository.get_by_username`'s query filter
`User.username == username`. -/
def matchesUsername (username : String) (u : User) : Bool :=
  u.username == username

/-- Row predicate of `UserRepository.get_by_refresh_token`'s query filter
`User.refresh_token == refresh_token` (a row with a NULL token matches no
query string). -/
def holdsRefreshToken (refresh_token : String) (u : User) : Bool :=
  u.refresh_token == some refresh_token

/-- Embedding of `UserRepository.get_by_username` (`repositories.py`):
`.filter(User.username == username).first()` over the session's rows. -/
def UserRepository.get_by_username (db : List User) (username : String) :
    Option User :=
  db.find? (matchesUsername username)

/-- Embedding of `UserRepository.get_by_refresh_token` (`repositories.py`):
`.filter(User.refresh_token == refresh_token).first()`. -/
def UserRepository.get_by_refresh_token (db : List User)
    (refresh_token : String) : Option User :=
  db.find? (holdsRefreshToken refresh_token)

/-- Committing an in-place mutation of the row returned by a `.first()`
query: the first row satisfying the query predicate is replaced by its
mutated version, all other rows are unchanged. -/
def commitFirst (p : User → Bool) (f : User → User) : List User → List User
  | [] => []
  | u :: rest => if p u then f u :: rest else u :: commitFirst p f rest

/-- Embedding of the JWT claims payload built by
`JwtService.generate_access_token`: subject, user id, role string and an
absolute expiry timestamp. -/
structure JwtPayload where
  sub : String
  id : Nat
  role : String
  exp : Nat
deriving DecidableEq, Repr

/-- Embedding of an encoded JWT: the claims payload together with the secret
key and algorithm it was signed with. -/
structure Jwt where
  payload : JwtPayload
  secret : String
  algorithm : String
deriving DecidableEq, Repr

/-- Embedding of `jwt.encode(payload, key, algorithm)` (PyJWT). -/
def jwt_encode (payload : JwtPayload) (key : String) (algorithm : String) :
    Jwt :=
  { payload := payload, secret := key, algorithm := algorithm }

/-- Embedding of `jwt.decode(token, key, algorithms)` (PyJWT): returns the
payload when the signature verifies (same symmetric key), the algorithm is
allowed, and the token is unexpired (`exp <= now` raises
`ExpiredSignatureError`); `none` models a raised `PyJWTError`. -/
def jwt_decode (token : Jwt) (key : String) (algorithms : List String)
    (now : Nat) : Option JwtPayload :=
  if token.secret == key && algorithms.contains token.algorithm
      && decide (now < token.payload.exp) then
    some token.payload
  else
    none

/-- Embedding of `src/config.py` (`Settings`): the JWT-related configuration
values read from the environment. -/
structure Settings where
  JWT_SECRET_KEY : String
  JWT_ALGORITHM : String
  ACCESS_TOKEN_EXPIRE_MINUTES : Nat
deriving DecidableEq, Repr

/-- Embedding of `JwtService.generate_access_token` (`services_impl.py`):
claims are subject = username, id, role string, and expiry = issuance time
plus the configured `ACCESS_TOKEN_EXPIRE_MINUTES`. -/
def JwtService.generate_access_token (s : Settings) (now : Nat) (user : User) :
    Jwt :=
  jwt_encode
    { sub := user.username, id := user.id, role := user.role.value,
      exp := now + s.ACCESS_TOKEN_EXPIRE_MINUTES * 60 }
    s.JWT_SECRET_KEY s.JWT_ALGORITHM

/-- Embedding of the `LoginRequest` DTO (`auth_dtos.py`). -/
structure LoginRequest where
  username : String
  password : String
deriving DecidableEq, Repr

/-- Embedding of the `LoginResponse` DTO (`auth_dtos.py`): access token,
refresh token, minutes until the access token expires (serialized as
`expiresInMinutes`), and the role string. -/
structure LoginResponse where
  access_token : Jwt
  refresh_token : String
  expires_in_minutes : Nat
  role : String
deriving DecidableEq, Repr

/-- Embedding of the `RegisterRequest` DTO (`auth_dtos.py`): it declares only
username, email and password — it has no role field, so a role hint in the
request body is dropped at the DTO boundary. -/
structure RegisterRequest where
  username : String
  email : String
  password : String
deriving DecidableEq, Repr

/-- Embedding of `EventLogService.log_event` (`event_log_service.py`):
creates the `EventLog` entity, persists it and commits. The database append
together with the autoincrement id assignment is modelled by `newId`; the
best-effort websocket broadcast swallows its own failures and leaves the
persisted state unchanged, so it does not appear in the state transition. -/
def EventLogService.log_event (logs : List EventLog) (newId now : Nat)
    (event_type description : String) (user_id : Option Nat) :
    Except PyErr (List EventLog) :=
  match EventLog.make event_type description user_id newId now with
  | .error e => .error e
  | .ok log => .ok (logs ++ [log])

/-- Embedding of `EventLogService.get_logs` (`event_log_service.py`): all
logs for a requester whose `role.value == "Admin"`, otherwise only the logs
whose `user_id` equals the requester's id. -/
def EventLogService.get_logs (logs : List EventLog) (user_id : Nat)
    (role : UserRole) : List EventLog :=
  if role.value == "Admin" then
    logs
  else
    logs.filter (fun log => log.user_id == some user_id)

/-- Embedding of `AuthService.login` (`auth_service.py`). Inputs beyond the
request: the session rows `db`, the persisted event logs `logs`, the current
time `now`, the freshly drawn refresh token `freshRefresh`
(`secrets.token_urlsafe(32)`) and the autoincrement id `newLogId` for the
login audit event. Returns the result together with the post-state of users
and logs. Failure paths raise `Exception("Invalid credentials")` for both an
unknown username and a failed password check; a `bcrypt` error propagates.
On success the user's refresh token slot is overwritten with expiry
`now + 7 days`, committed, the login event is logged, and the response
carries the new pair, a hard-coded `expires_in_minutes = 15`, and the role
string. -/
def AuthService.login (s : Settings) (db : List User) (logs : List EventLog)
    (now : Nat) (freshRefresh : String) (newLogId : Nat)
    (req : LoginRequest) :
    Except PyErr LoginResponse × List User × List EventLog :=
  match UserRepository.get_by_username db req.username with
  | none => (.error (.exception "Invalid credentials"), db, logs)
  | some user =>
    match PasswordHasher.verify req.password user.password_hash with
    | .error e => (.error e, db, logs)
    | .ok false => (.error (.exception "Invalid credentials"), db, logs)
    | .ok true =>
      let access_token := JwtService.generate_access_token s now user
      let db' := commitFirst (matchesUsername req.username)
        (fun v => v.update_refresh_token freshRefresh (now + 7 * 86400) now) db
      match EventLogService.log_event logs newLogId now "User Interaction"
          ("User " ++ user.username ++ " logged in.") (some user.id) with
      | .error e => (.error e, db', logs)
      | .ok logs' =>
        (.ok { access_token := access_token, refresh_token := freshRefresh,
               expires_in_minutes := 15, role := user.role.value },
         db', logs')

/-- Embedding of `AuthService.register` (`auth_service.py`): raises
`Exception("Username already exists")` when the username is taken; otherwise
hashes the password (with the freshly generated `salt`), constructs a `User`
with the fixed role `UserRole.USER`, persists and commits it. `newId` is the
autoincrement id the database assigns to the new row. -/
def AuthService.register (db : List User) (salt : String) (newId now : Nat)
    (req : RegisterRequest) : Except PyErr Unit × List User :=
  match UserRepository.get_by_username db req.username with
  | some _ => (.error (.exception "Username already exists"), db)
  | none =>
    let password_hash := PasswordHasher.hash req.password salt
    match User.make req.username req.email password_hash UserRole.user
        newId now with
    | .error e => (.error e, db)
    | .ok user => (.ok (), db ++ [user])

/-- Python truthiness of the expiry guard in `AuthService.refresh_token`:
`user.refresh_token_expiry_time and user.refresh_token_expiry_time <= now`
— a NULL expiry is falsy, so the expiry check only applies when the stored
expiry is non-null. -/
def refreshExpiryInvalid (u : User) (now : Nat) : Bool :=
  match u.refresh_token_expiry_time with
  | some e => decide (e ≤ now)
  | none => false

/-- Embedding of `AuthService.refresh_token` (`auth_service.py`): looks the
user up by the presented refresh token; raises
`Exception("Invalid or expired refresh token")` when no user holds the token
or the stored non-null expiry is at or before `now`. On success issues a new
access token and the freshly drawn refresh token `freshRefresh`, overwrites
the stored slot with expiry `now + 7 days` and commits. Returns the result
together with the post-state of the users. -/
def AuthService.refresh_token (s : Settings) (db : List User) (now : Nat)
    (freshRefresh : String) (token : String) :
    Except PyErr LoginResponse × List User :=
  match UserRepository.get_by_refresh_token db token with
  | none => (.error (.exception "Invalid or expired refresh token"), db)
  | some user =>
    if refreshExpiryInvalid user now then
      (.error (.exception "Invalid or expired refresh token"), db)
    else
      let new_access_token := JwtService.generate_access_token s now user
      let db' := commitFirst (holdsRefreshToken token)
        (fun v => v.update_refresh_token freshRefresh (now + 7 * 86400) now) db
      (.ok { access_token := new_access_token, refresh_token := freshRefresh,
             expires_in_minutes := 15, role := user.role.value },
       db')

/-- The `credentials_exception` of `get_current_user` (`dependencies.py`):
HTTP 401 with detail "Could not validate credentials". -/
def credentials_exception : PyErr :=
  .httpException 401 "Could not validate credentials"

/-- Embedding of `get_current_user` (`dependencies.py`): decodes the bearer
token with the configured secret and algorithm (any `PyJWTError`, including
an expired or badly signed token, yields the 401 `credentials_exception`),
extracts the subject claim and looks the user up by username; 401 when no
user is found. The returned user is not tested for `is_active`. In this
embedding a decoded payload always carries a `sub` claim, so the
`username is None` branch of the source does not arise. -/
def get_current_user (s : Settings) (db : List User) (now : Nat)
    (token : Jwt) : Except PyErr User :=
  match jwt_decode token s.JWT_SECRET_KEY [s.JWT_ALGORITHM] now with
  | none => .error credentials_exception
  | some payload =>
    match UserRepository.get_by_username db payload.sub with
    | none => .error credentials_exception
    | some user => .ok user

/-! Concrete fixtures used to evaluate the definitions on explicit inputs. -/

/-- Configuration fixture with `ACCESS_TOKEN_EXPIRE_MINUTES = 30`, a value
permitted by `src/config.py` (the setting is read from the environment with
default 15). -/
def settings30 : Settings :=
  { JWT_SECRET_KEY := "supersecretkey", JWT_ALGORITHM := "HS256",
    ACCESS_TOKEN_EXPIRE_MINUTES := 30 }

/-- User fixture: an active regular user with a hashed password and no
refresh token. -/
def alice : User :=
  { id := 1, is_active := true, creation_date := 0, modification_date := none,
    username := "alice", email := "a@x.com",
    password_hash := .bcryptHash "Pw123!" "salt1", role := .user,
    refresh_token := none, refresh_token_expiry_time := none }

/-- User fixture: `alice` holding the refresh token "tok" with an unexpired
stored expiry. -/
def aliceTok : User :=
  { alice with refresh_token := some "tok",
               refresh_token_expiry_time := some 604800 }

/-- User fixture: a second user also holding the refresh token "tok" — the
schema of `user.py` puts no uniqueness constraint on the refresh token
column. -/
def bobTok : User :=
  { id := 2, is_active := true, creation_date := 0, modification_date := none,
    username := "bob", email := "b@x.com",
    password_hash := .bcryptHash "Pw2" "salt2", role := .user,
    refresh_token := some "tok", refresh_token_expiry_time := some 604800 }

/-- User fixture: `alice` soft-deactivated via the `is_active` flag. -/
def aliceInactive : User := { alice with is_active := false }

/-- Event-log fixture: a system-generated event with no associated user. -/
def logSystem : EventLog :=
  { id := 1, is_active := true, creation_date := 0, event_type := "System",
    description := "system event", user_id := none }

/-- Event-log fixture: an event attributed to user 1. -/
def logAliceEvt : EventLog :=
  { id := 2, is_active := true, creation_date := 0,
    event_type := "User Interaction", description := "User alice logged in.",
    user_id := some 1 }

/-- Event-log fixture: an event attributed to user 2. -/
def logBobEvt : EventLog :=
  { id := 3, is_active := true, creation_date := 0,
    event_type := "User Interaction", description := "User bob logged in.",
    user_id := some 2 }

/-- Event-log fixture: a populated log set containing a system event and two
user events. -/
def logs0 : List EventLog := [logSystem, logAliceEvt, logBobEvt]

/-! Helper lemmas. -/

/-- Appending to a non-empty string on the right never yields the empty
string. -/
theorem string_append_ne_empty (a b : String) (hb : b ≠ "") : a ++ b ≠ "" := by
  intro h
  apply hb
  have hd : (a ++ b).data = "".data := by rw [h]
  rw [String.data_append] at hd
  exact String.ext (List.append_eq_nil.mp hd).2

/-- After committing a mutation that makes the first matching row stop
matching, a query for the predicate finds nothing, provided at most one row
matched beforehand. -/
theorem find?_commitFirst_eq_none (p : User → Bool) (f : User → User)
    (hf : ∀ v, p v = true → p (f v) = false) :
    ∀ l : List User, l.countP p ≤ 1 → (commitFirst p f l).find? p = none := by
  intro l
  induction l with
  | nil => intro _; rfl
  | cons u rest ih =>
    intro hcount
    by_cases hp : p u = true
    · rw [commitFirst, if_pos hp, List.find?_cons_of_neg _ (by rw [hf u hp]; intro hc; cases hc)]
      rw [List.countP_cons_of_pos p rest hp] at hcount
      have hzero : rest.countP p = 0 := Nat.le_zero.mp (Nat.le_of_succ_le_succ hcount)
      rw [List.find?_eq_none]
      intro x hx hpx
      exact (List.countP_eq_zero.mp hzero x hx) hpx
    · rw [commitFirst, if_neg hp, List.find?_cons_of_neg _ hp]
      rw [List.countP_cons_of_neg p rest hp] at hcount
      exact ih hcount

/-- Claim C9: the spec says a malformed digest makes `verify` return false;
the code calls `bcrypt.checkpw` with no exception handling, so a malformed
digest raises `ValueError("Invalid salt")` instead — `verify` never returns
a boolean there. -/
theorem c9_verify_raises_on_malformed_digest :
    PasswordHasher.verify "any-password" (Digest.malformed "not-a-bcrypt-hash")
        = .error (.valueError "Invalid salt")
    ∧ ∀ b : Bool,
        PasswordHasher.verify "any-password" (Digest.malformed "not-a-bcrypt-hash")
          ≠ .ok b := by
  have h : PasswordHasher.verify "any-password" (Digest.malformed "not-a-bcrypt-hash")
      = .error (.valueError "Invalid salt") := rfl
  exact ⟨h, fun b hb => Except.noConfusion (h.symm.trans hb)⟩

/-- Claim C6: the authorization gate does not test the `is_active` flag — a
validly signed, unexpired access token of a deactivated user is accepted
(`get_current_user` returns the user instead of raising the 401
`credentials_exception`), contradicting the spec's "no matching active user
is found" rule. -/
theorem c6_gate_accepts_inactive_user :
    aliceInactive.is_active = false
    ∧ get_current_user settings30 [aliceInactive] 0
        (JwtService.generate_access_token settings30 0 aliceInactive)
      = .ok aliceInactive := ⟨rfl, rfl⟩

/-- Claim C5: with `ACCESS_TOKEN_EXPIRE_MINUTES = 30`, both Login and
Refresh succeed with `expires_in_minutes = 15` hard-coded in the response
while the issued access token carries expiry claim `now + 30 * 60`, i.e. an
actual TTL of 30 minutes; the reported and actual TTLs differ. -/
theorem c5_expires_in_minutes_is_hardcoded :
    (∃ resp, (AuthService.login settings30 [alice] [] 0 "r1" 1
        { username := "alice", password := "Pw123!" }).1 = .ok resp
      ∧ resp.expires_in_minutes = 15
      ∧ resp.access_token.payload.exp
          = 0 + settings30.ACCESS_TOKEN_EXPIRE_MINUTES * 60
      ∧ resp.expires_in_minutes ≠ settings30.ACCESS_TOKEN_EXPIRE_MINUTES)
    ∧ (∃ resp, (AuthService.refresh_token settings30 [aliceTok] 0 "r2" "tok").1
        = .ok resp
      ∧ resp.expires_in_minutes = 15
      ∧ resp.access_token.payload.exp
          = 0 + settings30.ACCESS_TOKEN_EXPIRE_MINUTES * 60
      ∧ resp.expires_in_minutes ≠ settings30.ACCESS_TOKEN_EXPIRE_MINUTES) :=
  ⟨⟨_, rfl, rfl, rfl, by decide⟩, ⟨_, rfl, rfl, rfl, by decide⟩⟩

/-- Claim C8: `get_logs` returns the full log set for an Admin-role
requester, and for a non-Admin requester exactly the logs whose `user_id`
equals the requester's id (stated both as the filter equation and as a
membership characterisation). -/
theorem c8_get_logs_role_filtering (logs : List EventLog) (uid : Nat)
    (role : UserRole) :
    (role = .admin → EventLogService.get_logs logs uid role = logs)
    ∧ (role ≠ .admin →
        EventLogService.get_logs logs uid role
            = logs.filter (fun log => log.user_id == some uid)
        ∧ ∀ log, log ∈ EventLogService.get_logs logs uid role ↔
            log ∈ logs ∧ log.user_id = some uid) := by
  cases role with
  | admin =>
    exact ⟨fun _ => rfl, fun h => absurd rfl h⟩
  | user =>
    refine ⟨fun h => absurd h (by decide), fun _ => ⟨rfl, fun log => ?_⟩⟩
    show log ∈ logs.filter (fun log => log.user_id == some uid) ↔ _
    rw [List.mem_filter]
    exact and_congr_right fun _ => beq_iff_eq

/-- Witness for claim C8 at a concrete populated log set. -/
theorem c8_get_logs_role_filtering_witness :
    EventLogService.get_logs logs0 1 UserRole.admin = logs0
    ∧ EventLogService.get_logs logs0 1 UserRole.user
        = logs0.filter (fun log => log.user_id == some 1) :=
  ⟨(c8_get_logs_role_filtering logs0 1 UserRole.admin).1 rfl,
   ((c8_get_logs_role_filtering logs0 1 UserRole.user).2 (by decide)).1⟩

/-- Claim C10: a non-Admin requester never receives a log with a NULL
`user_id` — the non-admin filter compares the log's `user_id` with the
requester's integer id, and NULL never equals it. -/
theorem c10_non_admin_never_sees_unattributed_logs (logs : List EventLog)
    (uid : Nat) (role : UserRole) (h : role ≠ .admin) :
    ∀ log ∈ EventLogService.get_logs logs uid role, log.user_id ≠ none := by
  cases role with
  | admin => exact absurd rfl h
  | user =>
    intro log hlog hnone
    have hmem : log ∈ logs.filter (fun log => log.user_id == some uid) := hlog
    have hbeq := (List.mem_filter.mp hmem).2
    rw [hnone] at hbeq
    cases hbeq

/-- Witness for claim C10: user 1 requests the populated log set; the
system-generated log (NULL `user_id`) is filtered out, and the theorem
applies to each returned log. -/
theorem c10_witness :
    logAliceEvt ∈ EventLogService.get_logs logs0 1 UserRole.user
    ∧ logAliceEvt.user_id ≠ none :=
  ⟨by decide,
   c10_non_admin_never_sees_unattributed_logs logs0 1 UserRole.user
     (by decide) logAliceEvt (by decide)⟩

/-- Claim C1, counterexample: in a state where two users both store the
refresh token "tok" (nothing in the schema or the code prevents this),
Refresh("tok") succeeds and issues "new1" ≠ "tok", yet an immediately
following second Refresh("tok") succeeds as well — the overwrite only hits
the first matching row, so the claim quantified over every user state is
false. -/
theorem c1_counterexample :
    (∃ resp, (AuthService.refresh_token settings30 [aliceTok, bobTok] 0
          "new1" "tok").1 = .ok resp
      ∧ resp.refresh_token = "new1")
    ∧ "new1" ≠ "tok"
    ∧ ∃ resp2, (AuthService.refresh_token settings30
          (AuthService.refresh_token settings30 [aliceTok, bobTok] 0
            "new1" "tok").2 0 "new2" "tok").1 = .ok resp2 :=
  ⟨⟨_, rfl, rfl⟩, by decide, ⟨_, rfl⟩⟩

/-- Claim C1 (amended): provided at most one user's stored refresh token
equals the presented token, refresh-token rotation is single-use — when
Refresh(old) succeeds and the newly issued token differs from old, a second
Refresh(old) against the committed state fails with
`Exception("Invalid or expired refresh token")`, because the successful call
overwrote the holder's stored refresh token. -/
theorem c1_rotation_single_use (s : Settings) (db : List User)
    (now now2 : Nat) (fresh fresh2 token : String)
    (huniq : db.countP (holdsRefreshToken token) ≤ 1)
    (hne : fresh ≠ token)
    (hok : (AuthService.refresh_token s db now fresh token).1.isOk = true) :
    (AuthService.refresh_token s
        (AuthService.refresh_token s db now fresh token).2 now2 fresh2
        token).1
      = .error (.exception "Invalid or expired refresh token") := by
  cases hfind : UserRepository.get_by_refresh_token db token with
  | none => simp [AuthService.refresh_token, hfind, Except.isOk, Except.toBool] at hok
  | some u =>
    by_cases hexp : refreshExpiryInvalid u now = true
    · simp [AuthService.refresh_token, hfind, hexp, Except.isOk, Except.toBool] at hok
    · have hsnd : (AuthService.refresh_token s db now fresh token).2
          = commitFirst (holdsRefreshToken token)
              (fun v => v.update_refresh_token fresh (now + 7 * 86400) now)
              db := by
        simp [AuthService.refresh_token, hfind, hexp]
      have hnone : UserRepository.get_by_refresh_token
          (commitFirst (holdsRefreshToken token)
            (fun v => v.update_refresh_token fresh (now + 7 * 86400) now) db)
          token = none := by
        apply find?_commitFirst_eq_none _ _ _ db huniq
        intro v _
        show (some fresh == some token) = false
        exact beq_eq_false_iff_ne.mpr (fun hc => hne (Option.some.inj hc))
      rw [hsnd]
      simp [AuthService.refresh_token, hnone]

/-- Witness for the amended claim C1: a single holder of "tok"; the first
refresh succeeds with a distinct new token, the second fails. -/
theorem c1_rotation_single_use_witness :
    [aliceTok].countP (holdsRefreshToken "tok") ≤ 1
    ∧ "new1" ≠ "tok"
    ∧ (AuthService.refresh_token settings30 [aliceTok] 0 "new1" "tok").1.isOk
        = true
    ∧ (AuthService.refresh_token settings30
        (AuthService.refresh_token settings30 [aliceTok] 0 "new1" "tok").2
        0 "new2" "tok").1
      = .error (.exception "Invalid or expired refresh token") :=
  ⟨by decide, by decide, by decide,
   c1_rotation_single_use settings30 [aliceTok] 0 0 "new1" "new2" "tok"
     (by decide) (by decide) (by decide)⟩

/-- Claim C4, counterexample: the registration request with the empty
username is not a taken username, yet Register raises
`ValueError("Username cannot be empty")` from the `User` initializer instead
of succeeding, and creates no user. -/
theorem c4_counterexample :
    UserRepository.get_by_username [] "" = none
    ∧ (AuthService.register [] "salt1" 1 0
        { username := "", email := "e@x.com", password := "pw" }).1
      = .error (.valueError "Username cannot be empty")
    ∧ (AuthService.register [] "salt1" 1 0
        { username := "", email := "e@x.com", password := "pw" }).2 = [] :=
  ⟨rfl, rfl, rfl⟩

/-- Claim C4 (amended): for every registration request with a non-empty
username and email whose username is not already taken, Register succeeds
and persists exactly one new user whose role is `UserRole.USER` — the
`RegisterRequest` DTO carries no role field, so no role hint can influence
this; if the username is already taken, Register fails with
`Exception("Username already exists")` and the user table is unchanged. -/
theorem c4_register_fixed_role (db : List User) (salt : String)
    (newId now : Nat) (req : RegisterRequest) :
    (UserRepository.get_by_username db req.username = none →
      req.username ≠ "" → req.email ≠ "" →
      ∃ user, AuthService.register db salt newId now req
          = (.ok (), db ++ [user])
        ∧ user.role = UserRole.user ∧ user.username = req.username
        ∧ user.email = req.email
        ∧ user.password_hash = PasswordHasher.hash req.password salt)
    ∧ (∀ u, UserRepository.get_by_username db req.username = some u →
        AuthService.register db salt newId now req
          = (.error (.exception "Username already exists"), db)) := by
  constructor
  · intro hnone hu he
    have hdig :
        ¬ (Digest.isEmptyString (PasswordHasher.hash req.password salt)
            = true) := by
      simp [PasswordHasher.hash, bcrypt_hashpw, Digest.isEmptyString]
    have hmake : User.make req.username req.email
        (PasswordHasher.hash req.password salt) UserRole.user newId now
        = .ok { id := newId, is_active := true, creation_date := now,
                modification_date := none, username := req.username,
                email := req.email,
                password_hash := PasswordHasher.hash req.password salt,
                role := UserRole.user, refresh_token := none,
                refresh_token_expiry_time := none } := by
      rw [User.make, if_neg hu, if_neg he, if_neg hdig]
    simp only [AuthService.register, hnone, hmake]
    exact ⟨_, rfl, rfl, rfl, rfl, rfl⟩
  · intro u hsome
    simp only [AuthService.register, hsome]

/-- Witness for the amended claim C4: registering "carol" on a one-user
table succeeds with role `USER`; a duplicate "alice" registration fails.  -/
theorem c4_register_fixed_role_witness :
    (∃ user, AuthService.register [alice] "salt2" 2 5
        { username := "carol", email := "c@x.com", password := "pw" }
          = (.ok (), [alice] ++ [user])
      ∧ user.role = UserRole.user ∧ user.username = "carol"
      ∧ user.email = "c@x.com"
      ∧ user.password_hash = PasswordHasher.hash "pw" "salt2")
    ∧ AuthService.register [alice] "salt2" 2 5
        { username := "alice", email := "c@x.com", password := "pw" }
      = (.error (.exception "Username already exists"), [alice]) :=
  ⟨(c4_register_fixed_role [alice] "salt2" 2 5
      { username := "carol", email := "c@x.com", password := "pw" }).1
      rfl (by decide) (by decide),
   (c4_register_fixed_role [alice] "salt2" 2 5
      { username := "alice", email := "c@x.com", password := "pw" }).2
      alice rfl⟩

/-- Characterisation of the Python truthiness guard
`expiry and expiry <= now` of `AuthService.refresh_token`. -/
theorem refreshExpiryInvalid_iff (u : User) (now : Nat) :
    refreshExpiryInvalid u now = true ↔
      ∃ e, u.refresh_token_expiry_time = some e ∧ e ≤ now := by
  unfold refreshExpiryInvalid
  cases h : u.refresh_token_expiry_time with
  | none => simp
  | some e => simp

/-- Claim C2: Refresh raises `Exception("Invalid or expired refresh token")`
exactly when no user holds the presented token or the holder's stored expiry
is non-null and at or before now; whenever a holder exists whose stored
expiry is either null or strictly after now, Refresh succeeds with a new
token pair. -/
theorem c2_refresh_error_characterisation (s : Settings) (db : List User)
    (now : Nat) (fresh token : String) :
    ((AuthService.refresh_token s db now fresh token).1
        = .error (.exception "Invalid or expired refresh token")
      ↔ UserRepository.get_by_refresh_token db token = none
        ∨ ∃ u e, UserRepository.get_by_refresh_token db token = some u
            ∧ u.refresh_token_expiry_time = some e ∧ e ≤ now)
    ∧ (∀ u, UserRepository.get_by_refresh_token db token = some u →
        (∀ e, u.refresh_token_expiry_time = some e → now < e) →
        ∃ resp, (AuthService.refresh_token s db now fresh token).1
          = .ok resp ∧ resp.refresh_token = fresh) := by
  cases hfind : UserRepository.get_by_refresh_token db token with
  | none =>
    have hres : (AuthService.refresh_token s db now fresh token).1
        = .error (.exception "Invalid or expired refresh token") := by
      simp [AuthService.refresh_token, hfind]
    exact ⟨iff_of_true hres (Or.inl rfl), fun u hu => Option.noConfusion hu⟩
  | some u =>
    by_cases hexp : refreshExpiryInvalid u now = true
    · obtain ⟨e, he, hle⟩ := (refreshExpiryInvalid_iff u now).mp hexp
      have hres : (AuthService.refresh_token s db now fresh token).1
          = .error (.exception "Invalid or expired refresh token") := by
        simp [AuthService.refresh_token, hfind, hexp]
      refine ⟨iff_of_true hres (Or.inr ⟨u, e, rfl, he, hle⟩), ?_⟩
      intro u' hu' hvalid
      obtain rfl : u = u' := Option.some.inj hu'
      exact absurd hle (Nat.not_le.mpr (hvalid e he))
    · have hres : (AuthService.refresh_token s db now fresh token).1
          = .ok { access_token := JwtService.generate_access_token s now u,
                  refresh_token := fresh, expires_in_minutes := 15,
                  role := u.role.value } := by
        simp [AuthService.refresh_token, hfind, hexp]
      refine ⟨iff_of_false (fun hc => Except.noConfusion (hres.symm.trans hc))
          ?_, ?_⟩
      · rintro (hnone | ⟨u', e, hsome', he', hle'⟩)
        · exact Option.noConfusion hnone
        · obtain rfl : u = u' := Option.some.inj hsome'
          exact hexp ((refreshExpiryInvalid_iff u now).mpr ⟨e, he', hle'⟩)
      · intro u' hu' _
        exact ⟨_, hres, rfl⟩

/-- Witness for claim C2: "tok" is held by `aliceTok` with an unexpired
stored expiry, so Refresh("tok") succeeds; on the empty user table
Refresh("tok") fails with the invalid-or-expired error. -/
theorem c2_refresh_witness :
    (∃ resp, (AuthService.refresh_token settings30 [aliceTok] 0 "n1" "tok").1
        = .ok resp ∧ resp.refresh_token = "n1")
    ∧ (AuthService.refresh_token settings30 [] 0 "n1" "tok").1
        = .error (.exception "Invalid or expired refresh token") :=
  ⟨(c2_refresh_error_characterisation settings30 [aliceTok] 0 "n1" "tok").2
      aliceTok rfl
      (fun e he => by
        have h6 : (604800 : Nat) = e := Option.some.inj he
        omega),
   ((c2_refresh_error_characterisation settings30 [] 0 "n1" "tok").1).mpr
      (Or.inl rfl)⟩

/-- Claim C3: when the username matches no stored user, and when a user
exists but password verification returns false, Login fails with the
literally identical error value `Exception("Invalid credentials")`, no token
is issued and neither the user table nor the event logs change; when the
password verifies, Login succeeds and returns a token pair. -/
theorem c3_login_error_symmetry (s : Settings) (db : List User)
    (logs : List EventLog) (now : Nat) (fresh : String) (newLogId : Nat)
    (req : LoginRequest) :
    (UserRepository.get_by_username db req.username = none →
      AuthService.login s db logs now fresh newLogId req
        = (.error (.exception "Invalid credentials"), db, logs))
    ∧ (∀ u, UserRepository.get_by_username db req.username = some u →
        PasswordHasher.verify req.password u.password_hash = .ok false →
        AuthService.login s db logs now fresh newLogId req
          = (.error (.exception "Invalid credentials"), db, logs))
    ∧ (∀ u, UserRepository.get_by_username db req.username = some u →
        PasswordHasher.verify req.password u.password_hash = .ok true →
        ∃ resp db' logs', AuthService.login s db logs now fresh newLogId req
            = (.ok resp, db', logs')
          ∧ resp.refresh_token = fresh
          ∧ resp.access_token = JwtService.generate_access_token s now u) := by
  refine ⟨?_, ?_, ?_⟩
  · intro hnone
    simp [AuthService.login, hnone]
  · intro u hsome hverify
    simp [AuthService.login, hsome, hverify]
  · intro u hsome hverify
    have hdesc : ("User " ++ u.username ++ " logged in." : String) ≠ "" :=
      string_append_ne_empty _ _ (by decide)
    have hlog : EventLogService.log_event logs newLogId now
        "User Interaction" ("User " ++ u.username ++ " logged in.")
        (some u.id)
        = .ok (logs ++ [EventLog.mk newLogId true now "User Interaction"
            ("User " ++ u.username ++ " logged in.") (some u.id)]) := by
      rw [EventLogService.log_event, EventLog.make,
        if_neg (by decide : ¬ (("User Interaction" : String) = "")),
        if_neg hdesc]
    simp only [AuthService.login, hsome, hverify, hlog]
    exact ⟨_, _, _, rfl, rfl, rfl⟩

/-- Witness for claim C3: on a one-user table, login as the unknown "ghost"
and login as "alice" with the wrong password yield the same error value and
leave the state unchanged; login with the correct password succeeds. -/
theorem c3_login_witness :
    AuthService.login settings30 [alice] [] 0 "r1" 1
        { username := "ghost", password := "Pw123!" }
      = (.error (.exception "Invalid credentials"), [alice], [])
    ∧ AuthService.login settings30 [alice] [] 0 "r1" 1
        { username := "alice", password := "wrong" }
      = (.error (.exception "Invalid credentials"), [alice], [])
    ∧ ∃ resp db' logs', AuthService.login settings30 [alice] [] 0 "r1" 1
          { username := "alice", password := "Pw123!" }
        = (.ok resp, db', logs')
      ∧ resp.refresh_token = "r1"
      ∧ resp.access_token
          = JwtService.generate_access_token settings30 0 alice :=
  ⟨(c3_login_error_symmetry settings30 [alice] [] 0 "r1" 1
      { username := "ghost", password := "Pw123!" }).1 rfl,
   (c3_login_error_symmetry settings30 [alice] [] 0 "r1" 1
      { username := "alice", password := "wrong" }).2.1 alice rfl rfl,
   (c3_login_error_symmetry settings30 [alice] [] 0 "r1" 1
      { username := "alice", password := "Pw123!" }).2.2 alice rfl rfl⟩

/-- Claim C7: decoding the access token issued by `generate_access_token`
with the same secret and algorithm, at any time before the embedded expiry,
yields a payload whose subject claim is the user's username and whose role
claim is the string value of the user's persisted role. -/
theorem c7_access_token_round_trip (s : Settings) (u : User) (now t : Nat)
    (h : t < now + s.ACCESS_TOKEN_EXPIRE_MINUTES * 60) :
    ∃ payload, jwt_decode (JwtService.generate_access_token s now u)
        s.JWT_SECRET_KEY [s.JWT_ALGORITHM] t = some payload
      ∧ payload.sub = u.username
      ∧ payload.role = u.role.value
      ∧ payload.id = u.id := by
  have hdec : jwt_decode (JwtService.generate_access_token s now u)
      s.JWT_SECRET_KEY [s.JWT_ALGORITHM] t
      = some { sub := u.username, id := u.id, role := u.role.value,
               exp := now + s.ACCESS_TOKEN_EXPIRE_MINUTES * 60 } := by
    simp [jwt_decode, JwtService.generate_access_token, jwt_encode, h,
      List.contains]
  exact ⟨_, hdec, rfl, rfl, rfl⟩

/-- Witness for claim C7: alice's freshly issued token decodes at once to
her username and role string. -/
theorem c7_access_token_round_trip_witness :
    (0 : Nat) < 0 + settings30.ACCESS_TOKEN_EXPIRE_MINUTES * 60
    ∧ ∃ payload, jwt_decode
        (JwtService.generate_access_token settings30 0 alice)
        settings30.JWT_SECRET_KEY [settings30.JWT_ALGORITHM] 0 = some payload
      ∧ payload.sub = alice.username
      ∧ payload.role = alice.role.value
      ∧ payload.id = alice.id :=
  ⟨by decide,
   c7_access_token_round_trip settings30 alice 0 0 (by decide)⟩

end Backend
